import Mathlib

/-!
Shallow embedding of the `ck_assistant_py` repository:

* `cka_assistant/template_exchange_client.py` — the Remote Resource Client
  (`get_template`, `create_template`) mapping HTTP status codes to a small
  exception taxonomy;
* `cka_assistant/gemini_interaction.py` — the tool-call orchestration loop
  (`respond_to_prompt`), including the per-tool dispatch (argument extraction,
  defaulting, try/except wrapping into a function-response dict) and the
  final-text extraction;
* `main.py` — one iteration of the interactive shell loop.

Python values that flow through the dispatch layer (function-call arguments,
JSON bodies, response dicts) are modelled by `PyVal`; Python `None` is
`PyVal.pynone`.  Dicts are association lists with unique keys looked up by
first match (Python dicts have unique keys, so first-match lookup is exact).

The network is an oracle: each call the client makes to `requests.get` /
`requests.post` consumes one `NetResult` — either a delivered `HttpResponse`
or a raised transport exception (modelled as `Except.error msg`, standing for
any non-`TemplateAPIError` exception escaping the client call).  The
conversational agent is likewise an oracle list of `AgentReply`s, one consumed
per `chat.send_message`.  The orchestration loop in the source is unbounded
(`while`), so its embedding takes a fuel parameter; fuel exhaustion is a model
artifact and every concrete run below is given enough fuel.
-/

/-- A Python value as seen by the dispatch layer.  `pynone` is Python `None`
(which is also what `google.protobuf` null arguments decode to). -/
inductive PyVal where
  | pynone : PyVal
  | str : String → PyVal
  | int : Int → PyVal
  | boolean : Bool → PyVal
  | arr : List PyVal → PyVal
  | dict : List (String × PyVal) → PyVal

/-- `x is None` in Python. -/
def PyVal.isNone : PyVal → Bool
  | .pynone => true
  | _ => false

/-- A rough `str(x)` for message interpolation (f-strings in the source).
Only the string and `None` cases are ever exercised by the claims; the others
are best-effort renderings. -/
def pyStr : PyVal → String
  | .pynone => "None"
  | .str s => s
  | .int n => toString n
  | .boolean b => if b then "True" else "False"
  | .arr _ => "[...]"
  | .dict _ => "{...}"

/-- `d.get(k, default)` on a Python dict: the stored value when the key is
present (even when that value is `None`), otherwise the default. -/
def pyGetD (d : List (String × PyVal)) (k : String) (default : PyVal) : PyVal :=
  match d.find? (fun kv => kv.1 = k) with
  | some kv => kv.2
  | none => default

/-- `d.get(k)` on a Python dict: the stored value, or `None` when absent. -/
def pyGet (d : List (String × PyVal)) (k : String) : PyVal :=
  pyGetD d k PyVal.pynone

/-- Key lookup that distinguishes absence from a stored `None`
(`k in d` combined with `d[k]`). -/
def pyLookup (d : List (String × PyVal)) (k : String) : Option PyVal :=
  (d.find? (fun kv => kv.1 = k)).map (fun kv => kv.2)

/-- An HTTP response as the client reads it: `status_code`, the decoded JSON
body (`response.json()`), and the raw body text (`response.text`). -/
structure HttpResponse where
  status_code : Nat
  jsonBody : PyVal
  text : String

/-- Outcome of one `requests.get` / `requests.post` call: a delivered response,
or a transport-level exception (any exception that is not a
`TemplateAPIError`) raised by the HTTP library. -/
def NetResult := Except String HttpResponse

/-- The exception taxonomy of `template_exchange_client.py`, plus `otherError`
for any exception outside the `TemplateAPIError` hierarchy (e.g. a transport
failure) that escapes a client call.  In the source,
`TemplateNotFoundError` and `TemplateAuthenticationError` are subclasses of
`TemplateAPIError`; an `except TemplateAPIError` clause therefore also catches
the first two, which the dispatch embedding below reproduces. -/
inductive PyExc where
  | templateNotFoundError : String → PyExc
  | templateAuthenticationError : String → PyExc
  | templateAPIError : String → PyExc
  | otherError : String → PyExc

/-- `template_exchange_client.get_template` (lines 24–54): one authenticated
GET, then the status mapping
200 → decoded body, 404 → `TemplateNotFoundError`,
401 → `TemplateAuthenticationError`, anything else → `TemplateAPIError`
carrying the status code and raw body text.  A transport exception from
`requests.get` propagates out of the function unchanged (`otherError`). -/
def get_template (session_id template_type : PyVal) (net : NetResult) :
    Except PyExc PyVal :=
  match net with
  | .error m => .error (.otherError m)
  | .ok resp =>
    if resp.status_code = 200 then
      .ok resp.jsonBody
    else if resp.status_code = 404 then
      .error (.templateNotFoundError
        ("No " ++ pyStr template_type ++ " template found for session "
          ++ pyStr session_id))
    else if resp.status_code = 401 then
      .error (.templateAuthenticationError "Authentication failed. Check API key.")
    else
      .error (.templateAPIError
        ("API request failed with status " ++ toString resp.status_code
          ++ ": " ++ resp.text))

/-- The request body built by `create_template` (lines 76–78): the four fixed
keys, and `metadata` appended only when it `is not None`. -/
def create_payload (session_id template_type content status metadata : PyVal) :
    List (String × PyVal) :=
  let payload := [("sessionId", session_id), ("type", template_type),
    ("content", content), ("status", status)]
  if metadata.isNone then payload else payload ++ [("metadata", metadata)]

/-- `template_exchange_client.create_template` (lines 56–87): builds the JSON
payload, issues one authenticated POST, then maps
201 → decoded body, 401 → `TemplateAuthenticationError`,
anything else → `TemplateAPIError` with status and body.  Returns the outgoing
request body alongside the outcome so the body is observable. -/
def create_template (session_id template_type content status metadata : PyVal)
    (net : NetResult) : List (String × PyVal) × Except PyExc PyVal :=
  (create_payload session_id template_type content status metadata,
   match net with
   | .error m => .error (.otherError m)
   | .ok resp =>
     if resp.status_code = 201 then
       .ok resp.jsonBody
     else if resp.status_code = 401 then
       .error (.templateAuthenticationError "Authentication failed. Check API key.")
     else
       .error (.templateAPIError
         ("API request failed with status " ++ toString resp.status_code
           ++ ": " ++ resp.text)))

/-!
## Dispatch layer (`gemini_interaction.respond_to_prompt`, lines 111–161)

The per-tool branches: argument extraction with Python `dict.get` defaulting,
the bound client call, and the try/except ladder turning each outcome into a
`function_response_content` dict.
-/

/-- A client invocation as dispatched, recorded with the exact argument values
the registry passed to the Remote Resource Client. -/
inductive ClientCall where
  | getTemplate (session_id template_type : PyVal)
  | createTemplate (session_id template_type content status metadata : PyVal)

/-- The `except` ladder of the `get_template` branch (lines 119–132):
`TemplateNotFoundError` → type `TemplateNotFound`,
`TemplateAuthenticationError` → type `AuthenticationError`,
`TemplateAPIError` → type `APIFailure`,
any other exception → type `ClientExecutionError` with a rewrapped message. -/
def wrap_get (outcome : Except PyExc PyVal) : List (String × PyVal) :=
  match outcome with
  | .ok payload => [("result", payload)]
  | .error (.templateNotFoundError m) =>
      [("error", PyVal.str m), ("type", PyVal.str "TemplateNotFound")]
  | .error (.templateAuthenticationError m) =>
      [("error", PyVal.str m), ("type", PyVal.str "AuthenticationError")]
  | .error (.templateAPIError m) =>
      [("error", PyVal.str m), ("type", PyVal.str "APIFailure")]
  | .error (.otherError m) =>
      [("error", PyVal.str ("Unexpected error calling get_template: " ++ m)),
       ("type", PyVal.str "ClientExecutionError")]

/-- The `except` ladder of the `create_template` branch (lines 142–156).
There is no `except TemplateNotFoundError` clause here, so a
`TemplateNotFoundError` (a subclass of `TemplateAPIError`) would be caught by
the `except TemplateAPIError` clause as `APIFailure` — the client's
`create_template` never raises it, but the clause ordering is modelled
faithfully. -/
def wrap_create (outcome : Except PyExc PyVal) : List (String × PyVal) :=
  match outcome with
  | .ok payload => [("result", payload)]
  | .error (.templateAuthenticationError m) =>
      [("error", PyVal.str m), ("type", PyVal.str "AuthenticationError")]
  | .error (.templateNotFoundError m) =>
      [("error", PyVal.str m), ("type", PyVal.str "APIFailure")]
  | .error (.templateAPIError m) =>
      [("error", PyVal.str m), ("type", PyVal.str "APIFailure")]
  | .error (.otherError m) =>
      [("error", PyVal.str ("Unexpected error calling create_template: " ++ m)),
       ("type", PyVal.str "ClientExecutionError")]

/-- One dispatch of a function call (lines 111–161).  Returns the
`function_response_content` dict sent back to the agent, the list of client
invocations performed (empty for an unknown name), and the network oracle
after the dispatch (each client invocation consumes exactly one entry — the
client performs exactly one outbound call per invocation, with no retry). -/
def handle_function_call (function_name : String)
    (args : List (String × PyVal)) (nets : List NetResult) :
    List (String × PyVal) × List ClientCall × List NetResult :=
  if function_name = "get_template" then
    -- lines 115–116: required session_id via .get (None when absent),
    -- template_type defaulted to "handoff"
    let session_id := pyGet args "session_id"
    let template_type := pyGetD args "template_type" (PyVal.str "handoff")
    let net := nets.headD (Except.error "connection error")
    (wrap_get (get_template session_id template_type net),
     [ClientCall.getTemplate session_id template_type], nets.tail)
  else if function_name = "create_template" then
    -- lines 135–139: .get for the three required arguments (None when
    -- absent), status defaulted to "draft", metadata None when absent
    let session_id := pyGet args "session_id"
    let template_type := pyGet args "template_type"
    let content := pyGet args "content"
    let status := pyGetD args "status" (PyVal.str "draft")
    let metadata := pyGet args "metadata"
    let net := nets.headD (Except.error "connection error")
    (wrap_create (create_template session_id template_type content status
        metadata net).2,
     [ClientCall.createTemplate session_id template_type content status metadata],
     nets.tail)
  else
    -- lines 158–161: unknown function name; no client call, and the response
    -- dict carries only an "error" key (no "type" tag)
    ([("error", PyVal.str ("Function " ++ function_name
        ++ " is not implemented or recognized."))], [], nets)

/-!
## Orchestration loop (`respond_to_prompt`, lines 95–188) and shell (`main.py`)
-/

/-- One content part of an agent turn.  Protobuf `Part` objects always expose
both a `text` field (empty string when unset) and a `function_call` field
(whose `name` is the empty string when unset), so the source's
`hasattr(part, 'text')` and `hasattr(parts[0], 'function_call')` checks are
always true and the effective tests are on emptiness. -/
structure RespPart where
  text : String
  fc_name : String
  fc_args : List (String × PyVal)

/-- An agent reply: the parts of `response.candidates[0].content`
(also reachable as `response.parts`), plus the optional `response.text`
aggregate attribute read at line 181 (`none` models an absent attribute). -/
structure GenResponse where
  parts : List RespPart
  textAttr : Option String

/-- The `while` guard (lines 101–103): the parts list is non-empty and the
FIRST part's function-call name is non-empty.  Parts after the first are never
inspected. -/
def loopGuard (r : GenResponse) : Bool :=
  match r.parts with
  | [] => false
  | p :: _ => p.fc_name ≠ ""

/-- The function name and arguments of the first part (lines 105–107);
only meaningful when `loopGuard` holds. -/
def headCall (r : GenResponse) : String × List (String × PyVal) :=
  match r.parts with
  | [] => ("", [])
  | p :: _ => (p.fc_name, p.fc_args)

/-- The spec's notion "the latest turn contains a tool-call request"
(anywhere in the turn, not just first). -/
def containsToolCall (r : GenResponse) : Bool :=
  r.parts.any (fun p => p.fc_name ≠ "")

/-- The fixed fallback sentence of line 184. -/
def fallbackSentence : String :=
  "Model did not provide a final text response after handling potential function calls."

/-- Final-text extraction after the loop (lines 172–184): when parts exist,
the concatenation of every part's `text` (protobuf parts always have the
attribute); otherwise `response.text` when present and truthy (non-empty),
otherwise the fallback sentence. -/
def extract_final (r : GenResponse) : String :=
  match r.parts with
  | [] =>
    match r.textAttr with
    | some t => if t = "" then fallbackSentence else t
    | none => fallbackSentence
  | ps => String.join (ps.map (fun p => p.text))

/-- A `chat.send_message` outcome: a reply, or an exception raised while
communicating with the agent. -/
inductive AgentReply where
  | ok (r : GenResponse)
  | err (msg : String)

/-- The orchestration loop (lines 101–169) over the current reply: while the
guard holds, dispatch the first part's call, send the function response back
(consuming the next agent reply), and continue; otherwise extract the final
text.  An agent exception escapes the loop (the source's outer
`except Exception` at lines 186–188 re-raises it).  Returns the interaction
outcome together with the log of client invocations performed.  The source
loop is unbounded; `fuel` bounds the embedding only. -/
def run_loop : Nat → GenResponse → List AgentReply → List NetResult →
    Except String String × List ClientCall
  | 0, _, _, _ => (.error "model artifact: fuel exhausted", [])
  | fuel + 1, r, agent, nets =>
    if loopGuard r then
      let c := headCall r
      let d := handle_function_call c.1 c.2 nets
      match agent with
      | [] => (.error "model artifact: agent oracle exhausted", d.2.1)
      | .err m :: _ => (.error m, d.2.1)
      | .ok r2 :: rest =>
        let k := run_loop fuel r2 rest d.2.2
        (k.1, d.2.1 ++ k.2)
    else
      (.ok (extract_final r), [])

/-- `respond_to_prompt` (lines 95–188): send the prompt (consume the first
agent reply; an exception there propagates), then run the loop. -/
def respond_to_prompt (fuel : Nat) (agent : List AgentReply)
    (nets : List NetResult) : Except String String × List ClientCall :=
  match agent with
  | [] => (.error "model artifact: agent oracle exhausted", [])
  | .err m :: _ => (.error m, [])
  | .ok r :: rest => run_loop fuel r rest nets

/-- Python's `str.strip()` (no arguments): drop whitespace from both ends. -/
def pyStrip (s : String) : String :=
  ⟨((s.data.dropWhile Char.isWhitespace).reverse.dropWhile
      Char.isWhitespace).reverse⟩

/-- Python's `str.lower()` (the source only ever compares ASCII commands). -/
def pyLower (s : String) : String :=
  ⟨s.data.map Char.toLower⟩

/-- One event at the shell's input boundary (`main.py` lines 40–68). -/
inductive ShellEvent where
  | eof
  | interrupt
  | line (s : String)

/-- One iteration of the `main.py` interaction loop (lines 40–68): returns
whether the loop continues and what was printed.  An interaction-level error
is printed and the loop continues (`except Exception`, lines 63–68). -/
def shell_iteration (ev : ShellEvent)
    (respond : String → Except String String) : Bool × List String :=
  match ev with
  | .eof => (false, ["Exiting CK Assistant. Goodbye!"])
  | .interrupt => (false, ["CK Assistant interrupted. Exiting. Goodbye!"])
  | .line s =>
    if pyStrip s = "" then (true, [])
    else if pyLower (pyStrip s) = "quit" ∨ pyLower (pyStrip s) = "exit" then
      (false, ["Exiting CK Assistant. Goodbye!"])
    else
      match respond (pyStrip s) with
      | .ok text => (true, ["CKA is thinking...", "CKA Response:", text])
      | .error m =>
        (true, ["CKA is thinking...",
          "An unexpected error occurred during interaction: " ++ m,
          "Please try again or type 'quit' to exit."])

/-!
## Spec-side error taxonomy (§7 of the specification)

Used to state kind preservation of the dispatch layer as a refinement: the
spec's closed error vocabulary versus the "type" strings the code serializes.
-/

/-- The spec's failure kinds producible by dispatching a registered tool. -/
inductive SpecKind where
  | notFound
  | authenticationFailed
  | remoteError
  | clientExecutionError

/-- The string the code writes under the "type" key for each spec kind. -/
def kindTag : SpecKind → String
  | .notFound => "TemplateNotFound"
  | .authenticationFailed => "AuthenticationError"
  | .remoteError => "APIFailure"
  | .clientExecutionError => "ClientExecutionError"

/-- Modelled from the spec (§4.1 status tables composed with §4.2's kind
preservation): the failure kind the dispatch of a registered tool should
report for a given network outcome, `none` meaning success.  A transport
exception is an unexpected failure during dispatch (→ `clientExecutionError`). -/
def specFailureKind (function_name : String) (net : NetResult) : Option SpecKind :=
  match net with
  | .error _ => some .clientExecutionError
  | .ok resp =>
    if function_name = "get_template" then
      if resp.status_code = 200 then none
      else if resp.status_code = 404 then some .notFound
      else if resp.status_code = 401 then some .authenticationFailed
      else some .remoteError
    else
      if resp.status_code = 201 then none
      else if resp.status_code = 401 then some .authenticationFailed
      else some .remoteError

/-!
## Helper lemmas
-/

theorem pyGetD_of_lookup_none {d : List (String × PyVal)} {k : String}
    (v : PyVal) (h : pyLookup d k = none) : pyGetD d k v = v := by
  unfold pyLookup at h
  unfold pyGetD
  cases hf : List.find? (fun kv => decide (kv.1 = k)) d with
  | none => rfl
  | some kv => rw [hf] at h; simp at h

theorem pyGetD_of_lookup_some {d : List (String × PyVal)} {k : String}
    {v : PyVal} (dv : PyVal) (h : pyLookup d k = some v) : pyGetD d k dv = v := by
  unfold pyLookup at h
  unfold pyGetD
  cases hf : List.find? (fun kv => decide (kv.1 = k)) d with
  | none => rw [hf] at h; simp at h
  | some kv => rw [hf] at h; simp at h; exact h

theorem pyGet_of_lookup_none {d : List (String × PyVal)} {k : String}
    (h : pyLookup d k = none) : pyGet d k = PyVal.pynone :=
  pyGetD_of_lookup_none PyVal.pynone h

/-!
## Claims about the Remote Resource Client
-/

/-- C4: `get_template` returns the decoded body exactly on status 200, fails
with `TemplateNotFoundError` exactly on 404, with
`TemplateAuthenticationError` exactly on 401, and with `TemplateAPIError`
carrying the status code and raw body text on every other status; the model
consumes a single network outcome per invocation (no retry). -/
theorem c4_get_template_status_mapping (sid tt : PyVal) (resp : HttpResponse) :
    (resp.status_code = 200 →
      get_template sid tt (Except.ok resp) = .ok resp.jsonBody) ∧
    ((∃ m, get_template sid tt (Except.ok resp) =
        .error (.templateNotFoundError m)) ↔ resp.status_code = 404) ∧
    ((∃ m, get_template sid tt (Except.ok resp) =
        .error (.templateAuthenticationError m)) ↔ resp.status_code = 401) ∧
    (resp.status_code ≠ 200 → resp.status_code ≠ 404 → resp.status_code ≠ 401 →
      get_template sid tt (Except.ok resp) =
        .error (.templateAPIError ("API request failed with status "
          ++ toString resp.status_code ++ ": " ++ resp.text))) := by
  obtain ⟨sc, body, txt⟩ := resp
  by_cases h200 : sc = 200 <;> by_cases h404 : sc = 404 <;> by_cases h401 : sc = 401 <;>
    simp_all [get_template]

theorem c4_witness :
    get_template (PyVal.str "M5.S4") (PyVal.str "handoff")
      (Except.ok ⟨500, PyVal.pynone, "boom"⟩) =
      .error (.templateAPIError "API request failed with status 500: boom") := by
  have h := (c4_get_template_status_mapping (PyVal.str "M5.S4")
    (PyVal.str "handoff") ⟨500, PyVal.pynone, "boom"⟩).2.2.2
    (by decide) (by decide) (by decide)
  exact h

/-- C5: `create_template` returns the decoded body exactly on status 201,
fails with `TemplateAuthenticationError` exactly on 401, and with
`TemplateAPIError` carrying the status and body on every other status. -/
theorem c5_create_template_status_mapping
    (sid tt content status metadata : PyVal) (resp : HttpResponse) :
    (resp.status_code = 201 →
      (create_template sid tt content status metadata (Except.ok resp)).2 =
        .ok resp.jsonBody) ∧
    ((∃ m, (create_template sid tt content status metadata (Except.ok resp)).2 =
        .error (.templateAuthenticationError m)) ↔ resp.status_code = 401) ∧
    (resp.status_code ≠ 201 → resp.status_code ≠ 401 →
      (create_template sid tt content status metadata (Except.ok resp)).2 =
        .error (.templateAPIError ("API request failed with status "
          ++ toString resp.status_code ++ ": " ++ resp.text))) := by
  obtain ⟨sc, body, txt⟩ := resp
  by_cases h201 : sc = 201 <;> by_cases h401 : sc = 401 <;>
    simp_all [create_template]

theorem c5_witness :
    (create_template (PyVal.str "M5.S4") (PyVal.str "summary")
      (PyVal.str "Done.") (PyVal.str "draft") PyVal.pynone
      (Except.ok ⟨500, PyVal.pynone, "server error"⟩)).2 =
      .error (.templateAPIError "API request failed with status 500: server error") := by
  have h := (c5_create_template_status_mapping (PyVal.str "M5.S4")
    (PyVal.str "summary") (PyVal.str "Done.") (PyVal.str "draft") PyVal.pynone
    ⟨500, PyVal.pynone, "server error"⟩).2.2 (by decide) (by decide)
  exact h

/-- C6: the outgoing request body of `create_template` has exactly the keys
`sessionId`, `type`, `content`, `status` when `metadata` is `None` (no
`metadata` key at all), and those keys plus `metadata` bound to the verbatim
value when `metadata` is present. -/
theorem c6_create_payload_metadata (sid tt content status metadata : PyVal)
    (net : NetResult) :
    (metadata = PyVal.pynone →
      (create_template sid tt content status metadata net).1 =
        [("sessionId", sid), ("type", tt), ("content", content),
         ("status", status)] ∧
      pyLookup (create_template sid tt content status metadata net).1
        "metadata" = none) ∧
    (metadata ≠ PyVal.pynone →
      (create_template sid tt content status metadata net).1 =
        [("sessionId", sid), ("type", tt), ("content", content),
         ("status", status), ("metadata", metadata)] ∧
      pyLookup (create_template sid tt content status metadata net).1
        "metadata" = some metadata) := by
  constructor
  · intro h
    subst h
    exact ⟨rfl, rfl⟩
  · intro h
    have hn : metadata.isNone = false := by
      cases metadata
      · exact absurd rfl h
      all_goals rfl
    have hp : create_payload sid tt content status metadata =
        [("sessionId", sid), ("type", tt), ("content", content),
         ("status", status), ("metadata", metadata)] := by
      unfold create_payload
      rw [hn]
      rfl
    constructor
    · exact hp
    · show pyLookup (create_payload sid tt content status metadata)
        "metadata" = some metadata
      rw [hp]
      rfl

/-!
## Claims about the Tool Registry dispatch
-/

/-- C2: dispatching a registered tool always yields a function-response dict
(never an escaped exception): on client success a `result` entry and no
`error`; on any client failure an `error` message, no `result`, and a `type`
tag equal to the spec's kind — `TemplateNotFound`/`AuthenticationError`/
`APIFailure` preserved from the client failure, and `ClientExecutionError`
for any unexpected failure (e.g. a transport exception). -/
theorem c2_dispatch_total (function_name : String) (args : List (String × PyVal))
    (net : NetResult) (nets : List NetResult)
    (h : function_name = "get_template" ∨ function_name = "create_template") :
    match specFailureKind function_name net with
    | none =>
        pyLookup (handle_function_call function_name args (net :: nets)).1
          "result" ≠ none ∧
        pyLookup (handle_function_call function_name args (net :: nets)).1
          "error" = none
    | some k =>
        pyLookup (handle_function_call function_name args (net :: nets)).1
          "type" = some (PyVal.str (kindTag k)) ∧
        pyLookup (handle_function_call function_name args (net :: nets)).1
          "error" ≠ none ∧
        pyLookup (handle_function_call function_name args (net :: nets)).1
          "result" = none := by
  rcases h with h | h
  · subst h
    cases net with
    | error m => exact ⟨rfl, Option.some_ne_none _, rfl⟩
    | ok resp =>
      obtain ⟨sc, body, txt⟩ := resp
      by_cases h200 : sc = 200 <;> by_cases h404 : sc = 404 <;>
        by_cases h401 : sc = 401 <;>
        simp_all [specFailureKind, handle_function_call, get_template,
          wrap_get, pyLookup, kindTag]
  · subst h
    cases net with
    | error m => exact ⟨rfl, Option.some_ne_none _, rfl⟩
    | ok resp =>
      obtain ⟨sc, body, txt⟩ := resp
      by_cases h201 : sc = 201 <;> by_cases h401 : sc = 401 <;>
        simp_all [specFailureKind, handle_function_call, create_template,
          wrap_create, pyLookup, kindTag]

theorem c2_witness :
    pyLookup (handle_function_call "get_template"
        [("session_id", PyVal.str "M5.S4")]
        [Except.ok ⟨404, PyVal.pynone, "nf"⟩]).1 "type" =
      some (PyVal.str (kindTag SpecKind.notFound)) ∧
    pyLookup (handle_function_call "get_template"
        [("session_id", PyVal.str "M5.S4")]
        [Except.ok ⟨404, PyVal.pynone, "nf"⟩]).1 "error" ≠ none ∧
    pyLookup (handle_function_call "get_template"
        [("session_id", PyVal.str "M5.S4")]
        [Except.ok ⟨404, PyVal.pynone, "nf"⟩]).1 "result" = none :=
  c2_dispatch_total "get_template" [("session_id", PyVal.str "M5.S4")]
    (Except.ok ⟨404, PyVal.pynone, "nf"⟩) [] (Or.inl rfl)

/-- C3 counterexample: dispatching the unregistered name `delete_template`
yields a response dict whose only key is `error` — it carries NO `type` tag at
all (so no `UnknownTool` kind is recorded, unlike every registered-tool
failure, which carries a `type` tag) — and performs zero client calls. -/
theorem c3_counterexample :
    (handle_function_call "delete_template" [] []).1 =
      [("error", PyVal.str
        "Function delete_template is not implemented or recognized.")] ∧
    pyLookup (handle_function_call "delete_template" [] []).1 "type" = none ∧
    (handle_function_call "delete_template" [] []).2.1 = [] :=
  ⟨rfl, rfl, rfl⟩

/-- C3 (amended): dispatching a tool-call request whose name is neither
`get_template` nor `create_template` yields a failure response containing
only the error message "Function <name> is not implemented or recognized."
— with no kind/`type` tag — and performs zero network calls: no client
invocation is logged and the network oracle is untouched. -/
theorem c3_unknown_tool (function_name : String)
    (args : List (String × PyVal)) (nets : List NetResult)
    (h1 : function_name ≠ "get_template")
    (h2 : function_name ≠ "create_template") :
    handle_function_call function_name args nets =
      ([("error", PyVal.str ("Function " ++ function_name
          ++ " is not implemented or recognized."))], [], nets) := by
  unfold handle_function_call
  rw [if_neg h1, if_neg h2]

theorem c3_witness :
    handle_function_call "list_templates" [] [] =
      ([("error", PyVal.str
          "Function list_templates is not implemented or recognized.")],
       [], []) := by
  have h := c3_unknown_tool "list_templates" [] [] (by decide) (by decide)
  exact h

/-- C8: when a `get_template` request omits `template_type`, the client is
invoked with `template_type = "handoff"`; when a `create_template` request
omits `status`, the client is invoked with `status = "draft"`; a supplied
value for either argument is passed through unchanged (even a `None`). -/
theorem c8_argument_defaults (args : List (String × PyVal))
    (nets : List NetResult) :
    (pyLookup args "template_type" = none →
      (handle_function_call "get_template" args nets).2.1 =
        [ClientCall.getTemplate (pyGet args "session_id")
          (PyVal.str "handoff")]) ∧
    (∀ v, pyLookup args "template_type" = some v →
      (handle_function_call "get_template" args nets).2.1 =
        [ClientCall.getTemplate (pyGet args "session_id") v]) ∧
    (pyLookup args "status" = none →
      (handle_function_call "create_template" args nets).2.1 =
        [ClientCall.createTemplate (pyGet args "session_id")
          (pyGet args "template_type") (pyGet args "content")
          (PyVal.str "draft") (pyGet args "metadata")]) ∧
    (∀ v, pyLookup args "status" = some v →
      (handle_function_call "create_template" args nets).2.1 =
        [ClientCall.createTemplate (pyGet args "session_id")
          (pyGet args "template_type") (pyGet args "content")
          v (pyGet args "metadata")]) := by
  refine ⟨fun h => ?_, fun v h => ?_, fun h => ?_, fun v h => ?_⟩
  · show [ClientCall.getTemplate (pyGet args "session_id")
      (pyGetD args "template_type" (PyVal.str "handoff"))] = _
    rw [pyGetD_of_lookup_none _ h]
  · show [ClientCall.getTemplate (pyGet args "session_id")
      (pyGetD args "template_type" (PyVal.str "handoff"))] = _
    rw [pyGetD_of_lookup_some _ h]
  · show [ClientCall.createTemplate (pyGet args "session_id")
      (pyGet args "template_type") (pyGet args "content")
      (pyGetD args "status" (PyVal.str "draft")) (pyGet args "metadata")] = _
    rw [pyGetD_of_lookup_none _ h]
  · show [ClientCall.createTemplate (pyGet args "session_id")
      (pyGet args "template_type") (pyGet args "content")
      (pyGetD args "status" (PyVal.str "draft")) (pyGet args "metadata")] = _
    rw [pyGetD_of_lookup_some _ h]

theorem c8_witness :
    (handle_function_call "get_template"
      [("session_id", PyVal.str "M5.S4")] []).2.1 =
      [ClientCall.getTemplate (PyVal.str "M5.S4") (PyVal.str "handoff")] := by
  have h := (c8_argument_defaults [("session_id", PyVal.str "M5.S4")] []).1 rfl
  exact h

/-- C10 (implicit): dispatch never validates the schema-required arguments.
A `get_template` request lacking `session_id`, or a `create_template` request
lacking `session_id`, `template_type`, or `content`, is still forwarded to
the Remote Resource Client with `None` in the missing positions; exactly one
network outcome is consumed (the call is made), and with a success response
the dispatch even reports success — no argument-validation failure exists. -/
theorem c10_no_argument_validation (args : List (String × PyVal))
    (net : NetResult) (nets : List NetResult) :
    ((handle_function_call "get_template" args (net :: nets)).2.2 = nets) ∧
    ((handle_function_call "create_template" args (net :: nets)).2.2 = nets) ∧
    (pyLookup args "session_id" = none →
      (handle_function_call "get_template" args (net :: nets)).2.1 =
        [ClientCall.getTemplate PyVal.pynone
          (pyGetD args "template_type" (PyVal.str "handoff"))]) ∧
    (pyLookup args "session_id" = none →
      pyLookup args "template_type" = none →
      pyLookup args "content" = none →
      (handle_function_call "create_template" args (net :: nets)).2.1 =
        [ClientCall.createTemplate PyVal.pynone PyVal.pynone PyVal.pynone
          (pyGetD args "status" (PyVal.str "draft")) (pyGet args "metadata")]) ∧
    (∀ resp, net = Except.ok resp → resp.status_code = 200 →
      (handle_function_call "get_template" args (net :: nets)).1 =
        [("result", resp.jsonBody)]) := by
  refine ⟨rfl, rfl, fun h => ?_, fun h1 h2 h3 => ?_, fun resp hn hs => ?_⟩
  · show [ClientCall.getTemplate (pyGet args "session_id")
      (pyGetD args "template_type" (PyVal.str "handoff"))] = _
    rw [pyGet_of_lookup_none h]
  · show [ClientCall.createTemplate (pyGet args "session_id")
      (pyGet args "template_type") (pyGet args "content")
      (pyGetD args "status" (PyVal.str "draft")) (pyGet args "metadata")] = _
    rw [pyGet_of_lookup_none h1, pyGet_of_lookup_none h2,
      pyGet_of_lookup_none h3]
  · subst hn
    show wrap_get (get_template (pyGet args "session_id")
      (pyGetD args "template_type" (PyVal.str "handoff")) (Except.ok resp)) = _
    simp [get_template, wrap_get, hs]

theorem c10_witness :
    (handle_function_call "get_template" []
        [Except.ok ⟨200, PyVal.str "T", "T"⟩]).2.1 =
      [ClientCall.getTemplate PyVal.pynone (PyVal.str "handoff")] ∧
    (handle_function_call "get_template" []
        [Except.ok ⟨200, PyVal.str "T", "T"⟩]).1 =
      [("result", PyVal.str "T")] ∧
    (handle_function_call "get_template" []
        [Except.ok ⟨200, PyVal.str "T", "T"⟩]).2.2 = [] := by
  have h := c10_no_argument_validation [] (Except.ok ⟨200, PyVal.str "T", "T"⟩) []
  exact ⟨h.2.2.1 rfl, h.2.2.2.2 ⟨200, PyVal.str "T", "T"⟩ rfl rfl, h.1⟩

/-!
## Claims about the Conversation Orchestrator
-/

/-- C1 counterexample: a latest turn whose FIRST part is plain text and whose
SECOND part is a tool-call request.  The turn contains a tool-call request,
yet the orchestrator terminates (Done) immediately, returns the text, and
dispatches nothing — the loop guard only inspects `parts[0]`. -/
theorem c1_counterexample :
    containsToolCall
      ⟨[⟨"All done.", "", []⟩,
        ⟨"", "get_template", [("session_id", PyVal.str "M5.S4")]⟩], none⟩
      = true ∧
    run_loop 3
      ⟨[⟨"All done.", "", []⟩,
        ⟨"", "get_template", [("session_id", PyVal.str "M5.S4")]⟩], none⟩
      [] [] = (.ok "All done.", []) :=
  ⟨rfl, rfl⟩

/-- C1 (amended): the loop reaches Done (returning the extracted final text,
with no dispatch) exactly when the latest turn has no parts or its FIRST part
carries no named tool-call request; whenever the first part carries a named
tool-call request, the orchestrator dispatches that first call and continues
the loop with the agent's next reply, accumulating the dispatched client
calls.  Parts after the first are never inspected. -/
theorem c1_loop_step (fuel : Nat) (r r2 : GenResponse)
    (rest : List AgentReply) (nets : List NetResult) :
    (loopGuard r = false →
      ∀ agent, run_loop (fuel + 1) r agent nets = (.ok (extract_final r), [])) ∧
    (loopGuard r = true →
      run_loop (fuel + 1) r (AgentReply.ok r2 :: rest) nets =
        ((run_loop fuel r2 rest
            (handle_function_call (headCall r).1 (headCall r).2 nets).2.2).1,
         (handle_function_call (headCall r).1 (headCall r).2 nets).2.1 ++
           (run_loop fuel r2 rest
             (handle_function_call (headCall r).1 (headCall r).2 nets).2.2).2)) := by
  constructor
  · intro h agent
    show (if loopGuard r then _ else _) = _
    rw [if_neg (by rw [h]; exact Bool.false_ne_true)]
  · intro h
    show (if loopGuard r then _ else _) = _
    rw [if_pos h]

theorem c1_witness :
    run_loop 4 ⟨[⟨"final answer", "", []⟩], none⟩ [] [] =
      (.ok "final answer", []) :=
  (c1_loop_step 3 ⟨[⟨"final answer", "", []⟩], none⟩ ⟨[], none⟩ [] []).1 rfl []

/-- C7 counterexample: a terminal turn with one content part that carries no
text (and no tool call) — e.g. an inline-data part.  No textual content
exists in the terminal turn, yet the interaction yields the empty string,
not the fallback sentence, because line 172's `if response.parts:` branch
joins the (empty) texts instead of falling through. -/
theorem c7_counterexample :
    extract_final ⟨[⟨"", "", []⟩], none⟩ = "" ∧
    ("" : String) ≠ fallbackSentence ∧
    run_loop 1 ⟨[⟨"", "", []⟩], none⟩ [] [] = (.ok "", []) :=
  ⟨rfl, by decide, rfl⟩

/-- C7 (amended): when the terminal (tool-call-free) reply has no content
parts and the response exposes no non-empty aggregate text, the interaction
yields the fixed fallback sentence; when the terminal reply has content
parts, the interaction yields the concatenation of their text fields — which
is the empty string, not the fallback, if no part carries text. -/
theorem c7_fallback (fuel : Nat) (r : GenResponse) (agent : List AgentReply)
    (nets : List NetResult) :
    (r.parts = [] → (r.textAttr = none ∨ r.textAttr = some "") →
      run_loop (fuel + 1) r agent nets = (.ok fallbackSentence, [])) ∧
    (r.parts ≠ [] → loopGuard r = false →
      run_loop (fuel + 1) r agent nets =
        (.ok (String.join (r.parts.map (fun p => p.text))), [])) := by
  constructor
  · intro hp ht
    have hg : loopGuard r = false := by
      unfold loopGuard
      rw [hp]
    show (if loopGuard r then _ else _) = _
    rw [if_neg (by rw [hg]; exact Bool.false_ne_true)]
    have he : extract_final r = fallbackSentence := by
      unfold extract_final
      rw [hp]
      rcases ht with ht | ht <;> rw [ht]
      rfl
    rw [he]
  · intro hp hg
    show (if loopGuard r then _ else _) = _
    rw [if_neg (by rw [hg]; exact Bool.false_ne_true)]
    have he : extract_final r =
        String.join (r.parts.map (fun p => p.text)) := by
      unfold extract_final
      cases hps : r.parts with
      | nil => exact absurd hps hp
      | cons p ps => rfl
    rw [he]

theorem c7_witness :
    run_loop 2 ⟨[], none⟩ [] [] = (.ok fallbackSentence, []) :=
  (c7_fallback 1 ⟨[], none⟩ [] []).1 rfl (Or.inl rfl)

/-- C9: an exception while exchanging turns with the agent is fatal to the
interaction: it propagates as the interaction's error (never becomes a
function-response dict), it is not retried (the outcome ignores every later
oracle entry), and the shell (`main.py`) reports it and continues awaiting
the next prompt. -/
theorem c9_agent_failure_fatal (fuel : Nat) (r : GenResponse)
    (rest rest2 : List AgentReply) (nets : List NetResult) (m p : String) :
    (respond_to_prompt fuel (AgentReply.err m :: rest) nets =
      (.error m, [])) ∧
    (loopGuard r = true →
      (run_loop (fuel + 1) r (AgentReply.err m :: rest) nets).1 = .error m ∧
      run_loop (fuel + 1) r (AgentReply.err m :: rest) nets =
        run_loop (fuel + 1) r (AgentReply.err m :: rest2) nets) ∧
    (pyStrip p ≠ "" → pyLower (pyStrip p) ≠ "quit" →
      pyLower (pyStrip p) ≠ "exit" →
      shell_iteration (ShellEvent.line p) (fun _ => .error m) =
        (true, ["CKA is thinking...",
          "An unexpected error occurred during interaction: " ++ m,
          "Please try again or type 'quit' to exit."])) := by
  refine ⟨rfl, fun h => ?_, fun h1 h2 h3 => ?_⟩
  · constructor
    · show ((if loopGuard r then _ else _ :
        Except String String × List ClientCall)).1 = _
      rw [if_pos h]
    · show (if loopGuard r then _ else _ :
        Except String String × List ClientCall) = _
      rw [if_pos h]
      show _ = (if loopGuard r then _ else _ :
        Except String String × List ClientCall)
      rw [if_pos h]
  · simp [shell_iteration, h1, h2, h3]

theorem c9_witness :
    respond_to_prompt 5 [AgentReply.err "503 Service Unavailable"] [] =
      (.error "503 Service Unavailable", []) ∧
    shell_iteration (ShellEvent.line "fetch the handoff")
        (fun _ => .error "503 Service Unavailable") =
      (true, ["CKA is thinking...",
        "An unexpected error occurred during interaction: 503 Service Unavailable",
        "Please try again or type 'quit' to exit."]) := by
  have h := c9_agent_failure_fatal 5 ⟨[], none⟩ [] [] []
    "503 Service Unavailable" "fetch the handoff"
  refine ⟨h.1, h.2.2 (by decide) (by decide) (by decide)⟩

theorem c6_witness :
    (PyVal.dict [("tags", PyVal.arr [PyVal.str "x"])]) ≠ PyVal.pynone ∧
    (create_template (PyVal.str "M5.S4") (PyVal.str "summary")
      (PyVal.str "Done.") (PyVal.str "draft")
      (PyVal.dict [("tags", PyVal.arr [PyVal.str "x"])])
      (Except.ok ⟨201, PyVal.pynone, ""⟩)).1 =
      [("sessionId", PyVal.str "M5.S4"), ("type", PyVal.str "summary"),
       ("content", PyVal.str "Done."), ("status", PyVal.str "draft"),
       ("metadata", PyVal.dict [("tags", PyVal.arr [PyVal.str "x"])])] := by
  have hne : (PyVal.dict [("tags", PyVal.arr [PyVal.str "x"])]) ≠ PyVal.pynone :=
    fun hx => PyVal.noConfusion hx
  have h := (c6_create_payload_metadata (PyVal.str "M5.S4") (PyVal.str "summary")
    (PyVal.str "Done.") (PyVal.str "draft")
    (PyVal.dict [("tags", PyVal.arr [PyVal.str "x"])])
    (Except.ok ⟨201, PyVal.pynone, ""⟩)).2 hne
  exact ⟨hne, h.1⟩
